import Mathlib

/-!
Verification development for the EduCast Studio backend (Flask application in
`app.py` with helpers in `utils/models.py` and `utils/utility.py`).

The stateful parts of the application (SQLAlchemy rows, HTTP handlers, the
background audio worker) are shallowly embedded: the database is an explicit
list of rows, each handler is a pure function from a request and a state to a
response, a new state, and a record of its observable side effects (scheduled
background work, status-field writes).  JSON numbers are modelled as `Int`;
Python's fact that `bool` is a subclass of `int` (so `isinstance(True, (int,
float))` holds and `True * 60 == 60` while `str(True) == "True"`) is modelled
faithfully by the `JVal` type below.
-/

set_option autoImplicit false

namespace EduCast

/-! ### Python string primitives

Structural (kernel-reducible) models of the Python string operations the
handlers use: `str.strip`, `str.lower`, the substring test `in`, and
lexicographic string comparison. -/

/-- Python's `str.strip()`: remove leading and trailing whitespace. -/
def pyStrip (s : String) : String :=
  ⟨((s.data.dropWhile Char.isWhitespace).reverse.dropWhile Char.isWhitespace).reverse⟩

/-- Python's `str.lower()` (ASCII case folding; the catalog data is ASCII). -/
def pyLower (s : String) : String := ⟨s.data.map Char.toLower⟩

/-- Does the character list start with the given pattern? -/
def startsWithL : List Char → List Char → Bool
  | [], _ => true
  | _ :: _, [] => false
  | p :: ps, c :: cs => p == c && startsWithL ps cs

/-- Does the character list contain the pattern as a contiguous run? -/
def containsSubL (pat : List Char) : List Char → Bool
  | [] => startsWithL pat []
  | c :: cs => startsWithL pat (c :: cs) || containsSubL pat cs

/-- Python's substring test: `pat in s`. -/
def pyContains (s pat : String) : Bool := containsSubL pat.data s.data

/-- Lexicographic comparison of character lists by code point, as Python's
`<=` on strings. -/
def lexLe : List Char → List Char → Bool
  | [], _ => true
  | _ :: _, [] => false
  | a :: as, b :: bs => if a = b then lexLe as bs else decide (a < b)

/-- Python's `<=` on strings. -/
def strLe (x y : String) : Bool := lexLe x.data y.data

/-- Stable insertion into a sorted list: `x` goes in front of the first
element it compares `le` to, so earlier elements with equal keys stay first. -/
def insertLe {α : Type} (le : α → α → Bool) (x : α) : List α → List α
  | [] => [x]
  | y :: ys => if le x y then x :: y :: ys else y :: insertLe le x ys

/-- Stable sort (model of Python's stable `list.sort`). -/
def sortLe {α : Type} (le : α → α → Bool) : List α → List α
  | [] => []
  | x :: xs => insertLe le x (sortLe le xs)

/-- A JSON scalar value as delivered by `request.get_json()`.  Numbers are
modelled as integers (the handlers under study only do integer arithmetic on
them); strings, booleans and null are kept separate because the duration
defaulting logic in `generate_podcast` distinguishes them. -/
inductive JVal where
  | jnum  (n : Int)
  | jstr  (s : String)
  | jbool (b : Bool)
  | jnull
deriving Repr, DecidableEq

/-- Python's `str()` applied to a scalar: `str(5) = "5"`, `str(True) = "True"`. -/
def pyStr : JVal → String
  | .jnum n   => toString n
  | .jstr s   => s
  | .jbool true  => "True"
  | .jbool false => "False"
  | .jnull    => "None"

/-- Python's `isinstance(v, (int, float))`.  Booleans are instances of `int`
in Python, so they pass this check. -/
def isNumInstance : JVal → Bool
  | .jnum _  => true
  | .jbool _ => true
  | _        => false

/-- Python's `v > 0` on values that passed the `isinstance` check
(`True` counts as `1`, `False` as `0`). -/
def pyPos : JVal → Bool
  | .jnum n      => decide (0 < n)
  | .jbool b     => b
  | _            => false

/-- Python's `v * 60` on numeric values (`True * 60 == 60`). -/
def pyMul60 : JVal → Int
  | .jnum n      => n * 60
  | .jbool true  => 60
  | .jbool false => 0
  | _            => 0

/-- The duration value actually used by `generate_podcast` (app.py:794-796):
`duration = data.get('duration', 5); if not isinstance(duration, (int, float))
or duration <= 0: duration = 5`. -/
def effectiveDuration (d : Option JVal) : JVal :=
  let raw := d.getD (.jnum 5)
  if isNumInstance raw && pyPos raw then raw else .jnum 5

/-- A row of the `podcasts` table (utils/models.py, class `Podcast`), with the
fields read or written by the handlers under study.  `duration` is the stored
string label (e.g. `"5 min"`); float-valued `speed` is omitted (never read). -/
structure Podcast where
  id           : Nat
  user_id      : Nat
  book_id      : Int
  book_title   : String
  book_author  : String
  title        : String
  description  : String
  status       : String
  progress     : Int
  duration     : String
  format       : String
  language     : String
  tone         : String
  tags         : String
  is_public    : Bool
  script       : String
  audio_url    : Option String
  file_size    : Option Int
  error_message : Option String
  play_count   : Int
  like_count   : Int
  download_count : Int
  created_at   : Nat
  completed_at : Option Nat
deriving Repr, DecidableEq

/-- `Podcast.validate_status` (utils/models.py:131-136): the status value must
be a member of the validated enum; returns `true` when the assignment is
accepted. -/
def validate_status (status : String) : Bool :=
  ["pending", "processing", "completed", "failed", "cancelled"].contains status

/-- The database state seen by the podcast handlers: the `podcasts` table and
the next autoincrement primary key. -/
structure GPState where
  podcasts : List Podcast
  nextId   : Nat
deriving Repr, DecidableEq

/-- The JSON body of a `POST /api/generate-podcast` request.  `none` models an
absent key (the handler checks `field not in data` for the required ones). -/
structure PodcastReq where
  book_id     : Option Int
  title       : Option String
  author      : Option String
  duration    : Option JVal
  description : Option String
  language    : Option String
  tone        : Option String
  tags        : Option String
  is_public   : Option Bool
deriving Repr, DecidableEq

/-- Outcome of a podcast-mutating handler: a success payload (the row sent back
through `to_dict`, with the response message) or an error (message, HTTP code). -/
inductive ApiResult where
  | ok  (podcast : Podcast) (msg : String)
  | err (msg : String) (code : Nat)
deriving Repr, DecidableEq

/-- The arguments `generate_podcast` hands to the background thread
(app.py:826-829): `args=(podcast.id, script, duration)`. -/
structure WorkerArgs where
  podcast_id : Nat
  script     : String
  duration   : JVal
deriving Repr, DecidableEq

/-- Everything observable about one call to the create handler: the HTTP
result, the database state after it, the background work it scheduled (if
any), and the sequence of values it wrote to the `status` column. -/
structure CreateOutcome where
  result       : ApiResult
  state        : GPState
  scheduled    : Option WorkerArgs
  statusWrites : List String
deriving Repr, DecidableEq

/-- The row `generate_podcast` constructs at app.py:801-819 (before the
status flip to `processing`): status `pending`, progress 0, duration label
`f"{duration} min"`, defaults for the optional request fields. -/
def pendingRow (script : String) (uid now : Nat) (data : PodcastReq) (bid : Int)
    (t a : String) (d : JVal) (pid : Nat) : Podcast :=
  { id := pid
    user_id := uid
    book_id := bid
    book_title := t
    book_author := a
    title := "EduCast: " ++ t
    description := data.description.getD
      ("A " ++ pyStr d ++ "-minute podcast about " ++ t ++ " by " ++ a)
    status := "pending"
    progress := 0
    duration := pyStr d ++ " min"
    format := "mp3"
    language := data.language.getD "English"
    tone := data.tone.getD "educational"
    tags := data.tags.getD ""
    is_public := data.is_public.getD false
    script := script
    audio_url := none
    file_size := none
    error_message := none
    play_count := 0
    like_count := 0
    download_count := 0
    created_at := now
    completed_at := none }

/-- `generate_podcast` (app.py:754-848).  `script_gen` stands for
`generate_podcast_script` (utils/utility.py:130-225), whose output text is
randomized and irrelevant to the row bookkeeping; the handler passes it the
trimmed title, trimmed author, and the effective duration.  `now` stands for
`datetime.utcnow()`. -/
def generate_podcast (script_gen : String → String → JVal → String)
    (uid : Nat) (now : Nat) (data : PodcastReq) (s : GPState) : CreateOutcome :=
  let missing :=
    (if data.book_id.isNone then ["book_id"] else []) ++
    (if data.title.isNone then ["title"] else []) ++
    (if data.author.isNone then ["author"] else [])
  match data.book_id, data.title, data.author with
  | some bid, some t0, some a0 =>
    let t := pyStrip t0
    let a := pyStrip a0
    if t = "" then ⟨.err "Book title cannot be empty" 400, s, none, []⟩
    else if a = "" then ⟨.err "Author cannot be empty" 400, s, none, []⟩
    else
      match s.podcasts.find? (fun p => p.user_id == uid && p.book_id == bid) with
      | some p => ⟨.ok p "Podcast for this book already exists", s, none, []⟩
      | none =>
        let d := effectiveDuration data.duration
        let script := script_gen t a d
        let row := pendingRow script uid now data bid t a d s.nextId
        -- the row is committed with status 'pending', the thread is started,
        -- then status/progress are set to 'processing'/10 and committed again
        let row2 := { row with status := "processing", progress := 10 }
        ⟨.ok row2 "Podcast generation started successfully",
         ⟨s.podcasts ++ [row2], s.nextId + 1⟩,
         some ⟨row.id, script, d⟩,
         ["pending", "processing"]⟩
  | _, _, _ =>
      ⟨.err ("Missing required fields: " ++ String.intercalate ", " missing) 400,
       s, none, []⟩

/-- Apply an update to the row with the given primary key. -/
def updatePodcast (s : GPState) (pid : Nat) (f : Podcast → Podcast) : GPState :=
  ⟨s.podcasts.map (fun p => if p.id == pid then f p else p), s.nextId⟩

/-- Observable outcome of the background worker: the database state it leaves
behind, the values it wrote to `status`, and the duration cap it passed to
`limit_audio_duration` (if synthesis got that far). -/
structure WorkerOutcome where
  state        : GPState
  statusWrites : List String
  trimCap      : Option Int
deriving Repr, DecidableEq

/-- The cap the worker computes for `limit_audio_duration`
(app.py:877, `max_duration = duration_minutes * 60`). -/
def workerMaxDuration (d : JVal) : Int := pyMul60 d

/-- `generate_podcast_audio_background` (app.py:850-917).  The external
text-to-speech call and the ffmpeg trim are modelled by their outcomes
`synthOk`/`synthMsg` and `trimOk`; `now`, `fsize` and `fname` stand for the
completion timestamp, the artifact size, and the final file name. -/
def generate_podcast_audio_background (pid : Nat) (script : String) (d : JVal)
    (synthOk : Bool) (synthMsg : String) (trimOk : Bool)
    (now : Nat) (fsize : Int) (fname : String) (s : GPState) : WorkerOutcome :=
  match s.podcasts.find? (fun p => p.id == pid) with
  | none => ⟨s, [], none⟩
  | some _ =>
    let s1 := updatePodcast s pid (fun p =>
      { p with progress := 30, script := script,
               duration := pyStr d ++ " min",
               tags := if p.tags = "" then "" else p.tags })
    if synthOk then
      let s2 := updatePodcast s1 pid (fun p => { p with progress := 70 })
      if trimOk then
        ⟨updatePodcast s2 pid (fun p =>
          { p with audio_url := some ("/static/audio/" ++ fname),
                   file_size := some fsize,
                   status := "completed",
                   progress := 100,
                   completed_at := some now }),
         ["completed"], some (workerMaxDuration d)⟩
      else
        ⟨updatePodcast s2 pid (fun p =>
          { p with status := "failed",
                   error_message := some "Audio duration limitation failed" }),
         ["failed"], some (workerMaxDuration d)⟩
    else
      ⟨updatePodcast s1 pid (fun p =>
        { p with status := "failed",
                 error_message := some ("Audio generation failed: " ++ synthMsg) }),
       ["failed"], none⟩

/-- `get_podcast` (app.py:974-1012): the row is looked up by `(id, user_id)`,
so a podcast of another user answers 404; with `?play=true` the play counter
is incremented before the row is returned. -/
def get_podcast (uid pid : Nat) (play : Bool) (s : GPState) : ApiResult × GPState :=
  match s.podcasts.find? (fun p => p.id == pid && p.user_id == uid) with
  | none => (.err "Podcast not found" 404, s)
  | some p =>
    if play then
      (.ok { p with play_count := p.play_count + 1 } "Podcast retrieved",
       updatePodcast s pid (fun q => { q with play_count := q.play_count + 1 }))
    else
      (.ok p "Podcast retrieved", s)

/-- Result of the delete endpoint: the deleted id, or an error. -/
inductive DeleteResult where
  | ok  (deleted_id : Nat) (msg : String)
  | err (msg : String) (code : Nat)
deriving Repr, DecidableEq

/-- `delete_podcast` (app.py:1014-1048): the row is looked up by
`(id, user_id)`; the on-disk artifact removal is best-effort and does not
affect the database outcome, so it is not modelled. -/
def delete_podcast (uid pid : Nat) (s : GPState) : DeleteResult × GPState :=
  match s.podcasts.find? (fun p => p.id == pid && p.user_id == uid) with
  | none => (.err "Podcast not found" 404, s)
  | some _ =>
    (.ok pid "Podcast deleted successfully",
     ⟨s.podcasts.eraseP (fun p => p.id == pid && p.user_id == uid), s.nextId⟩)

/-- Result of the like endpoint: the new like count, or an error. -/
inductive LikeResult where
  | ok  (likes : Int) (msg : String)
  | err (msg : String) (code : Nat)
deriving Repr, DecidableEq

/-- `like_podcast` (app.py:1050-1071).  Unlike read and delete, the lookup at
app.py:1058 filters by `id` only — there is no `user_id` ownership check — so
any authenticated user can increment the like counter of any podcast. -/
def like_podcast (_uid pid : Nat) (s : GPState) : LikeResult × GPState :=
  match s.podcasts.find? (fun p => p.id == pid) with
  | none => (.err "Podcast not found" 404, s)
  | some p =>
    (.ok (p.like_count + 1) "Podcast liked successfully",
     updatePodcast s pid (fun q => { q with like_count := q.like_count + 1 }))

/-- Response shape of the user podcast listing (app.py:958-968).  Integer
division models Python's `//`; both agree on the non-negative operands the
theorems below consider. -/
structure PodListResult where
  podcasts     : List Podcast
  current_page : Int
  per_page     : Int
  total        : Nat
  total_pages  : Int
  has_next     : Bool
  has_prev     : Bool
deriving Repr, DecidableEq

/-- `get_user_podcasts` (app.py:919-968): the requested page size is clamped
by `per_page = min(int(request.args.get('per_page', 10)), 50)`; rows are the
user's podcasts, optionally filtered by status, ordered by `created_at`
descending, then `offset((page-1)*per_page).limit(per_page)`. -/
def get_user_podcasts (uid : Nat) (statusFilter : Option String)
    (page per_page_req : Int) (s : GPState) : PodListResult :=
  let per_page : Int := min per_page_req 50
  let q := s.podcasts.filter (fun p => p.user_id == uid)
  let q := match statusFilter with
    | some st => if st ≠ "" && st ≠ "all" then q.filter (fun p => p.status == st) else q
    | none => q
  let total := q.length
  let offset := (page - 1) * per_page
  let items := ((sortLe (fun a b => decide (b.created_at ≤ a.created_at)) q).drop
      offset.toNat).take per_page.toNat
  { podcasts := items
    current_page := page
    per_page := per_page
    total := total
    total_pages := ((total : Int) + per_page - 1) / per_page
    has_next := decide (offset + per_page < (total : Int))
    has_prev := decide (1 < page) }

/-! ### Book catalog -/

/-- An entry of the in-memory `books_db` literal, keeping the fields the
filter/sort/search logic reads.  `rating10` is the rating in tenths (`4.7` is
stored as `47`): the source's float ratings are only ever compared for order,
which the tenths representation preserves exactly.  Display-only fields
(cover URL, page count, ...) are never read by the handler logic. -/
structure Book where
  id          : Int
  title       : String
  author      : String
  year        : Int
  genre       : String
  description : String
  popularity  : Int
  rating10    : Int
deriving Repr, DecidableEq

/-- The 12-entry catalog literal of `get_books` (app.py:379-584). -/
def books_db : List Book :=
  [ { id := 1, title := "Pride and Prejudice", author := "Jane Austen", year := 1813,
      genre := "Romance",
      description := "A romantic novel of manners that depicts the emotional development of protagonist Elizabeth Bennet.",
      popularity := 98, rating10 := 47 },
    { id := 2, title := "The Great Gatsby", author := "F. Scott Fitzgerald", year := 1925,
      genre := "Fiction",
      description := "A story of the mysteriously wealthy Jay Gatsby and his love for the beautiful Daisy Buchanan.",
      popularity := 93, rating10 := 45 },
    { id := 3, title := "Frankenstein", author := "Mary Shelley", year := 1818,
      genre := "Horror",
      description := "A story about Victor Frankenstein, a young scientist who creates a sapient creature in an unorthodox scientific experiment.",
      popularity := 92, rating10 := 46 },
    { id := 4, title := "1984", author := "George Orwell", year := 1949,
      genre := "Science Fiction",
      description := "A dystopian social science fiction novel about totalitarian control and thought control.",
      popularity := 96, rating10 := 48 },
    { id := 5, title := "To Kill a Mockingbird", author := "Harper Lee", year := 1960,
      genre := "Fiction",
      description := "A novel about racial inequality and moral growth in the American South.",
      popularity := 94, rating10 := 48 },
    { id := 6, title := "Wuthering Heights", author := "Emily Brontë", year := 1847,
      genre := "Gothic Fiction",
      description := "A story of the intense, almost demonic love between Catherine Earnshaw and Heathcliff.",
      popularity := 88, rating10 := 44 },
    { id := 7, title := "Jane Eyre", author := "Charlotte Brontë", year := 1847,
      genre := "Romance",
      description := "A novel about an orphan girl's growth to adulthood and her love for Mr. Rochester.",
      popularity := 91, rating10 := 46 },
    { id := 8, title := "Brave New World", author := "Aldous Huxley", year := 1932,
      genre := "Science Fiction",
      description := "A dystopian novel about a technologically advanced future society.",
      popularity := 89, rating10 := 45 },
    { id := 9, title := "Moby Dick", author := "Herman Melville", year := 1851,
      genre := "Adventure",
      description := "The voyage of the whaling ship Pequod, commanded by Captain Ahab in search of the white whale.",
      popularity := 87, rating10 := 43 },
    { id := 10, title := "The Catcher in the Rye", author := "J.D. Salinger", year := 1951,
      genre := "Fiction",
      description := "Story of Holden Caulfield's experiences in New York City after being expelled from prep school.",
      popularity := 90, rating10 := 41 },
    { id := 11, title := "The Hobbit", author := "J.R.R. Tolkien", year := 1937,
      genre := "Fantasy",
      description := "The adventure of Bilbo Baggins as he travels with a group of dwarves to reclaim their mountain home.",
      popularity := 95, rating10 := 48 },
    { id := 12, title := "The Picture of Dorian Gray", author := "Oscar Wilde", year := 1890,
      genre := "Philosophical Fiction",
      description := "A novel about a handsome young man who sells his soul for eternal youth and beauty.",
      popularity := 86, rating10 := 44 } ]

/-- The genre and search filters of `get_books` (app.py:586-600); `genre` and
`search` arrive already stripped/lowercased as in the handler. -/
def apply_filters (genre search : String) (l : List Book) : List Book :=
  let l := if genre ≠ "" && genre ≠ "all"
    then l.filter (fun b => pyLower b.genre == genre) else l
  if search ≠ "" then
    let sl := pyLower search
    l.filter (fun b =>
      pyContains (pyLower b.title) sl ||
      pyContains (pyLower b.author) sl ||
      pyContains (pyLower b.genre) sl ||
      (b.description ≠ "" && pyContains (pyLower b.description) sl))
  else l

/-- One comparison step of Python's `list.sort(key=..., reverse=...)`:
with `reverse=True` the order is descending while ties keep their original
relative order, which the stable `sortLe` with a reversed `le` reproduces. -/
def keyLe {α : Type} (le : α → α → Bool) (rev : Bool) (x y : α) : Bool :=
  if rev then le y x else le x y

/-- The sort dispatch of `get_books` (app.py:602-614). -/
def apply_sort (sort_by sort_order : String) (l : List Book) : List Book :=
  let rev := sort_order == "desc"
  if sort_by == "title" then
    sortLe (fun a b => keyLe strLe rev (pyLower a.title) (pyLower b.title)) l
  else if sort_by == "author" then
    sortLe (fun a b => keyLe strLe rev (pyLower a.author) (pyLower b.author)) l
  else if sort_by == "year" then
    sortLe (fun a b => keyLe (fun x y : Int => decide (x ≤ y)) rev a.year b.year) l
  else if sort_by == "popularity" then
    sortLe (fun a b => keyLe (fun x y : Int => decide (x ≤ y)) rev a.popularity b.popularity) l
  else if sort_by == "rating" then
    sortLe (fun a b => keyLe (fun x y : Int => decide (x ≤ y)) rev a.rating10 b.rating10) l
  else l

/-- The pagination block returned by `get_books` (app.py:630-637). -/
structure Pagination where
  current_page : Nat
  per_page     : Nat
  total_books  : Nat
  total_pages  : Nat
  has_next     : Bool
  has_prev     : Bool
deriving Repr, DecidableEq

/-- The pagination step of `get_books` (app.py:616-622 and 630-637):
`total_pages = (total_books + per_page - 1) // per_page`, the slice
`filtered_books[(page-1)*per_page : (page-1)*per_page + per_page]`,
`has_next = page < total_pages`, `has_prev = page > 1`. -/
def paginate (page per_page : Nat) (books : List Book) : List Book × Pagination :=
  let total_books := books.length
  let total_pages := (total_books + per_page - 1) / per_page
  let start_idx := (page - 1) * per_page
  let paginated := (books.drop start_idx).take per_page
  (paginated,
   { current_page := page
     per_page := per_page
     total_books := total_books
     total_pages := total_pages
     has_next := decide (page < total_pages)
     has_prev := decide (1 < page) })

/-- `get_books` (app.py:365-652): strip/lowercase the genre, strip the search
term, filter, sort, paginate.  `page` and `per_page` are the values parsed by
`int(...)`; the claims under study constrain them to be at least 1, where
`Nat` and Python `int` agree. -/
def get_books (page per_page : Nat) (genreRaw searchRaw sort_by sort_order : String) :
    List Book × Pagination :=
  let genre := pyLower (pyStrip genreRaw)
  let search := pyStrip searchRaw
  paginate page per_page (apply_sort sort_by sort_order (apply_filters genre search books_db))

/-- The truncated catalog literal inside `get_book` (app.py:660-713): only the
first three books, followed by the comment `# Add more books as needed...`. -/
def books_db_detail : List Book :=
  [ { id := 1, title := "Pride and Prejudice", author := "Jane Austen", year := 1813,
      genre := "Romance",
      description := "A romantic novel of manners that depicts the emotional development of protagonist Elizabeth Bennet.",
      popularity := 98, rating10 := 47 },
    { id := 2, title := "The Great Gatsby", author := "F. Scott Fitzgerald", year := 1925,
      genre := "Fiction",
      description := "A story of the mysteriously wealthy Jay Gatsby and his love for the beautiful Daisy Buchanan.",
      popularity := 93, rating10 := 45 },
    { id := 3, title := "Frankenstein", author := "Mary Shelley", year := 1818,
      genre := "Horror",
      description := "A story about Victor Frankenstein, a young scientist who creates a sapient creature in an unorthodox scientific experiment.",
      popularity := 92, rating10 := 46 } ]

/-- Result of the book detail endpoint. -/
inductive BookResult where
  | ok  (book : Book)
  | err (msg : String) (code : Nat)
deriving Repr, DecidableEq

/-- `get_book` (app.py:654-723): look the id up in the truncated literal,
404 if absent. -/
def get_book (book_id : Int) : BookResult :=
  match books_db_detail.find? (fun b => b.id == book_id) with
  | some b => .ok b
  | none => .err "Book not found" 404

/-! ### Password validation -/

/-- The special-character class of `validate_password`
(utils/utility.py:98, regex `[!@#$%^&*(),.?":{}|<>]`). -/
def isSpecialChar (c : Char) : Bool :=
  ['!', '@', '#', '$', '%', '^', '&', '*', '(', ')', ',', '.', '?', '"',
   ':', '\x7b', '\x7d', '|', '<', '>'].contains c

/-- `validate_password` (utils/utility.py:80-101): the rules are checked in a
fixed order and the function returns at the FIRST failure, so the message
names exactly one missing requirement.  Character classes are the ASCII ones
of the source's regexes. -/
def validate_password (password : String) : Bool × String :=
  if password = "" then (false, "Password is required")
  else if password.length < 8 then
    (false, "Password must be at least 8 characters long")
  else if !(password.data.any Char.isUpper) then
    (false, "Password must contain at least one uppercase letter")
  else if !(password.data.any Char.isLower) then
    (false, "Password must contain at least one lowercase letter")
  else if !(password.data.any Char.isDigit) then
    (false, "Password must contain at least one number")
  else if !(password.data.any isSpecialChar) then
    (false, "Password must contain at least one special character")
  else (true, "Password is valid")

/-! ### JWT tokens

`create_jwt_token`/`verify_jwt_token` (app.py:44-66) call PyJWT's HS256
encode/decode.  The HMAC itself is external library code; it is abstracted as
a function `mac` from the payload to a signature byte string, universally
quantified in the theorems below: signing produces `mac payload`, and
verification checks that the carried signature equals `mac payload` and that
the expiry lies in the future.  Times are seconds since the epoch. -/

/-- The claims `create_jwt_token` puts in the token (app.py:46-53). -/
structure JwtPayload where
  user_id : Nat
  role    : String
  email   : String
  exp     : Nat
  iat     : Nat
  jti     : Nat
deriving Repr, DecidableEq

/-- A token: the signed payload plus the signature bytes. -/
structure JwtToken where
  payload : JwtPayload
  sig     : List Nat
deriving Repr, DecidableEq

/-- `JWT_EXPIRATION` hours (app.py:32,42 — default configuration). -/
def JWT_EXPIRATION : Nat := 24

/-- `create_jwt_token` (app.py:45-54): the expiry is `now + 24h`, `jti` is the
random token id from `secrets.token_hex`. -/
def create_jwt_token (mac : JwtPayload → List Nat)
    (user_id : Nat) (role email : String) (now jti : Nat) : JwtToken :=
  let payload : JwtPayload :=
    { user_id := user_id, role := role, email := email,
      exp := now + JWT_EXPIRATION * 3600, iat := now, jti := jti }
  { payload := payload, sig := mac payload }

/-- `verify_jwt_token` (app.py:57-66): an invalid signature or an expired
token yields `none` (PyJWT's `InvalidTokenError`/`ExpiredSignatureError`),
otherwise the payload. -/
def verify_jwt_token (mac : JwtPayload → List Nat) (now : Nat) (t : JwtToken) :
    Option JwtPayload :=
  if t.sig = mac t.payload then
    if now < t.payload.exp then some t.payload else none
  else none

/-! ### Sample data for concrete instantiations -/

/-- A concrete completed podcast row: id 1, owned by user 1, for book 2. -/
def samplePodcast : Podcast :=
  { id := 1, user_id := 1, book_id := 2,
    book_title := "The Great Gatsby", book_author := "F. Scott Fitzgerald",
    title := "EduCast: The Great Gatsby", description := "d",
    status := "completed", progress := 100, duration := "5 min", format := "mp3",
    language := "English", tone := "educational", tags := "", is_public := false,
    script := "s", audio_url := some "/static/audio/podcast_1.mp3",
    file_size := some 1000, error_message := none,
    play_count := 0, like_count := 0, download_count := 0,
    created_at := 0, completed_at := some 3 }

/-- A database state holding just `samplePodcast`. -/
def sampleState : GPState := ⟨[samplePodcast], 2⟩

/-- A concrete well-formed create request for book 2 with no duration field. -/
def sampleReq : PodcastReq :=
  { book_id := some 2, title := some "The Great Gatsby",
    author := some "F. Scott Fitzgerald", duration := none, description := none,
    language := none, tone := none, tags := none, is_public := none }

/-- A create request whose `duration` field is the JSON boolean `true`. -/
def boolDurReq : PodcastReq := { sampleReq with duration := some (.jbool true) }

/-- Read the podcast payload out of a success result. -/
def resultPodcast? : ApiResult → Option Podcast
  | .ok p _ => some p
  | .err _ _ => none

/-! ### C3 — pagination of the 12-book catalog at page=2, per_page=5 -/

/-- C3, counterexample: the claim asserts that `page=2&per_page=5` over the
12-book unfiltered catalog yields `has_next=false`.  In fact 12 books over 5
per page give 3 pages, and the handler computes `has_next = page <
total_pages`, i.e. `2 < 3`, which is `true`, so the claimed value is wrong. -/
theorem C3_counterexample :
    ¬ ((get_books 2 5 "" "" "popularity" "desc").2.has_next = false) := by decide

/-- C3, amended: requesting `page=2&per_page=5` against the full 12-book
catalog returns exactly 5 items, `has_prev=true`, `has_next=TRUE` (page 3
still holds two books), and a total page count of 3. -/
theorem C3_amended_pagination :
    (get_books 2 5 "" "" "popularity" "desc").1.length = 5 ∧
    (get_books 2 5 "" "" "popularity" "desc").2.has_prev = true ∧
    (get_books 2 5 "" "" "popularity" "desc").2.has_next = true ∧
    (get_books 2 5 "" "" "popularity" "desc").2.total_pages = 3 := by
  refine ⟨by decide, by decide, by decide, by decide⟩

/-! ### C6 — weak-password error message -/

/-- C6, counterexample: the claim says the validation error for `"abc"`
enumerates all of the missing character classes.  In fact `validate_password`
returns at its first failed rule: for `"abc"` the message is only the length
message; `"abc"` also lacks an uppercase letter and a special character, yet
the message mentions neither class. -/
theorem C6_counterexample :
    validate_password "abc" = (false, "Password must be at least 8 characters long") ∧
    "abc".data.any Char.isUpper = false ∧
    "abc".data.any isSpecialChar = false ∧
    pyContains "Password must be at least 8 characters long" "uppercase" = false ∧
    pyContains "Password must be at least 8 characters long" "special" = false := by
  refine ⟨by decide, by decide, by decide, by decide, by decide⟩

/-- C6, amended: a weak password is rejected with a message naming only the
FIRST failed rule, the rules being checked in the fixed order length,
uppercase, lowercase, digit, special character — one branch per rule: a
non-empty password failing rule k (and passing rules 1..k-1) gets exactly
rule k's message, and a password passing all five rules is accepted. -/
theorem C6_first_failure_reported (p : String) (h1 : p ≠ "") :
    (p.length < 8 →
      validate_password p = (false, "Password must be at least 8 characters long")) ∧
    (8 ≤ p.length → p.data.any Char.isUpper = false →
      validate_password p = (false, "Password must contain at least one uppercase letter")) ∧
    (8 ≤ p.length → p.data.any Char.isUpper = true →
      p.data.any Char.isLower = false →
      validate_password p = (false, "Password must contain at least one lowercase letter")) ∧
    (8 ≤ p.length → p.data.any Char.isUpper = true →
      p.data.any Char.isLower = true → p.data.any Char.isDigit = false →
      validate_password p = (false, "Password must contain at least one number")) ∧
    (8 ≤ p.length → p.data.any Char.isUpper = true →
      p.data.any Char.isLower = true → p.data.any Char.isDigit = true →
      p.data.any isSpecialChar = false →
      validate_password p = (false, "Password must contain at least one special character")) ∧
    (8 ≤ p.length → p.data.any Char.isUpper = true →
      p.data.any Char.isLower = true → p.data.any Char.isDigit = true →
      p.data.any isSpecialChar = true →
      validate_password p = (true, "Password is valid")) := by
  refine ⟨?_, ?_, ?_, ?_, ?_, ?_⟩
  · intro h2
    simp [validate_password, h1, h2]
  · intro h2 hu
    have h4 : ¬ p.length < 8 := by omega
    simp [validate_password, h1, h4, hu]
  · intro h2 hu hl
    have h4 : ¬ p.length < 8 := by omega
    simp [validate_password, h1, h4, hu, hl]
  · intro h2 hu hl hd
    have h4 : ¬ p.length < 8 := by omega
    simp [validate_password, h1, h4, hu, hl, hd]
  · intro h2 hu hl hd hs
    have h4 : ¬ p.length < 8 := by omega
    simp [validate_password, h1, h4, hu, hl, hd, hs]
  · intro h2 hu hl hd hs
    have h4 : ¬ p.length < 8 := by omega
    simp [validate_password, h1, h4, hu, hl, hd, hs]

/-- C6, witness: the amended statement at concrete passwords, one per
branch — each failing exactly its first rule in the fixed order, plus one
passing all rules. -/
theorem C6_witness :
    validate_password "abc" =
      (false, "Password must be at least 8 characters long") ∧
    validate_password "abcdefgh" =
      (false, "Password must contain at least one uppercase letter") ∧
    validate_password "ABCDEFGH" =
      (false, "Password must contain at least one lowercase letter") ∧
    validate_password "Abcdefgh" =
      (false, "Password must contain at least one number") ∧
    validate_password "Abcdefg1" =
      (false, "Password must contain at least one special character") ∧
    validate_password "Abcdef1!" = (true, "Password is valid") :=
  ⟨(C6_first_failure_reported "abc" (by decide)).1 (by decide),
   (C6_first_failure_reported "abcdefgh" (by decide)).2.1 (by decide) (by decide),
   (C6_first_failure_reported "ABCDEFGH" (by decide)).2.2.1
     (by decide) (by decide) (by decide),
   (C6_first_failure_reported "Abcdefgh" (by decide)).2.2.2.1
     (by decide) (by decide) (by decide) (by decide),
   (C6_first_failure_reported "Abcdefg1" (by decide)).2.2.2.2.1
     (by decide) (by decide) (by decide) (by decide) (by decide),
   (C6_first_failure_reported "Abcdef1!" (by decide)).2.2.2.2.2
     (by decide) (by decide) (by decide) (by decide) (by decide)⟩

/-! ### C9 — the detail endpoint only knows books 1, 2, 3 -/

/-- C9: for every book id between 4 and 12 — all of which the listing
endpoint's 12-entry catalog contains — the detail endpoint `get_book`
returns the 404 "Book not found" error, because its own catalog literal was
left truncated after the first three books. -/
theorem C9_detail_endpoint_truncated (id : Int) (h4 : 4 ≤ id) (h12 : id ≤ 12) :
    get_book id = .err "Book not found" 404 ∧
    books_db.any (fun b => b.id == id) = true := by
  interval_cases id <;> exact ⟨by decide, by decide⟩

/-- C9, witness: the statement at the concrete id 7 (Jane Eyre, served by the
listing endpoint but unknown to the detail endpoint). -/
theorem C9_witness :
    (4 : Int) ≤ 7 ∧ (7 : Int) ≤ 12 ∧ get_book 7 = .err "Book not found" 404 :=
  ⟨by decide, by decide, (C9_detail_endpoint_truncated 7 (by decide) (by decide)).1⟩

/-! ### C10 — user podcast listing page size is clamped at 50 -/

/-- C10: the user podcast listing computes its effective page size as
`min(requested, 50)` and returns at most 50 rows, however large the requested
`per_page` is.  (The hypothesis `1 ≤ per_page_req` restricts to meaningful
requests; for a negative requested size the model and SQL backends diverge on
the meaning of a negative LIMIT.) -/
theorem C10_per_page_clamped (uid : Nat) (sf : Option String) (page ppr : Int)
    (s : GPState) (hppr : 1 ≤ ppr) :
    (get_user_podcasts uid sf page ppr s).per_page = min ppr 50 ∧
    (get_user_podcasts uid sf page ppr s).podcasts.length ≤ 50 := by
  refine ⟨rfl, ?_⟩
  have h1 : (get_user_podcasts uid sf page ppr s).podcasts.length ≤ (min ppr 50).toNat :=
    List.length_take_le _ _
  have h2 : (min ppr 50).toNat ≤ 50 := by
    have := min_le_right ppr 50
    omega
  omega

/-- C10, witness: a request for 1000 rows against the sample state is clamped
to page size 50. -/
theorem C10_witness :
    (1 : Int) ≤ 1000 ∧
    (get_user_podcasts 1 none 1 1000 sampleState).per_page = 50 ∧
    (get_user_podcasts 1 none 1 1000 sampleState).podcasts.length ≤ 50 :=
  ⟨by decide,
   by rw [(C10_per_page_clamped 1 none 1 1000 sampleState (by decide)).1]; decide,
   (C10_per_page_clamped 1 none 1 1000 sampleState (by decide)).2⟩

/-! ### C5 — token round-trip and signature tampering -/

/-- C5: for every signing function, user id, role and email, verifying a
freshly issued token succeeds and yields a payload with the same user id and
an expiry strictly in the future; and altering any byte of the signature of
an issued token makes verification return `none`, at any verification time. -/
theorem C5_token_roundtrip_tamper (mac : JwtPayload → List Nat)
    (uid : Nat) (role email : String) (now jti : Nat) :
    (∃ p, verify_jwt_token mac now (create_jwt_token mac uid role email now jti) = some p ∧
      p.user_id = uid ∧ now < p.exp) ∧
    (∀ (i b now2 : Nat) (h : i < (create_jwt_token mac uid role email now jti).sig.length),
      b ≠ (create_jwt_token mac uid role email now jti).sig.get ⟨i, h⟩ →
      verify_jwt_token mac now2
        { payload := (create_jwt_token mac uid role email now jti).payload,
          sig := (create_jwt_token mac uid role email now jti).sig.set i b } = none) := by
  constructor
  · have h24 : JWT_EXPIRATION = 24 := rfl
    have hv : verify_jwt_token mac now (create_jwt_token mac uid role email now jti) =
        some { user_id := uid, role := role, email := email,
               exp := now + JWT_EXPIRATION * 3600, iat := now, jti := jti } := by
      simp only [verify_jwt_token, create_jwt_token]
      rw [if_pos (by trivial), if_pos (by omega)]
    exact ⟨_, hv, rfl, by simp only []; omega⟩
  · intro i b now2 h hb
    set t := create_jwt_token mac uid role email now jti with ht
    have hsig : t.sig = mac t.payload := rfl
    have hne : t.sig.set i b ≠ mac t.payload := by
      rw [← hsig]
      intro heq
      apply hb
      have h' : i < (t.sig.set i b).length := by
        rw [List.length_set]
        exact h
      have e1 : (t.sig.set i b).get ⟨i, h'⟩ = b := by
        simp [List.get_eq_getElem]
      have e2 : (t.sig.set i b).get ⟨i, h'⟩ = t.sig.get ⟨i, h⟩ := by
        simp only [List.get_eq_getElem]
        simp [heq]
      rw [← e1, e2]
    simp only [verify_jwt_token, if_neg hne]

/-- C5, witness: the theorem at a concrete signing function, payload and
altered signature byte. -/
theorem C5_witness :
    verify_jwt_token (fun _ => [7, 7]) 100
      (create_jwt_token (fun _ => [7, 7]) 42 "user" "a@b.co" 100 9) =
      some { user_id := 42, role := "user", email := "a@b.co",
             exp := 100 + 24 * 3600, iat := 100, jti := 9 } ∧
    verify_jwt_token (fun _ => [7, 7]) 100
      { payload := (create_jwt_token (fun _ => [7, 7]) 42 "user" "a@b.co" 100 9).payload,
        sig := (create_jwt_token (fun _ => [7, 7]) 42 "user" "a@b.co" 100 9).sig.set 0 8 } =
      none :=
  ⟨by decide,
   (C5_token_roundtrip_tamper (fun _ => [7, 7]) 42 "user" "a@b.co" 100 9).2
     0 8 100 (by decide) (by decide)⟩

/-! ### C1 — podcast creation is idempotent per (user, book_id) -/

/-- Characterization of the create handler when a `(user, book_id)` row is
found: it returns that row unchanged with the "already exists" message,
leaves the state alone, schedules nothing, writes no status. -/
lemma generate_podcast_found (g : String → String → JVal → String)
    (uid now : Nat) (data : PodcastReq) (s : GPState)
    (bid : Int) (t0 a0 : String) (q : Podcast)
    (hb : data.book_id = some bid) (ht : data.title = some t0)
    (ha : data.author = some a0)
    (ht' : pyStrip t0 ≠ "") (ha' : pyStrip a0 ≠ "")
    (hf : s.podcasts.find? (fun p => p.user_id == uid && p.book_id == bid) = some q) :
    generate_podcast g uid now data s =
      ⟨.ok q "Podcast for this book already exists", s, none, []⟩ := by
  simp only [generate_podcast, hb, ht, ha, if_neg ht', if_neg ha', hf]

/-- Characterization of the create handler when no `(user, book_id)` row
exists yet: a fresh row (id = next key) is appended with its status flipped
to `processing`, the worker is scheduled on `(id, script, duration)`, and the
status column sees the writes `pending` then `processing`. -/
lemma generate_podcast_fresh (g : String → String → JVal → String)
    (uid now : Nat) (data : PodcastReq) (s : GPState)
    (bid : Int) (t0 a0 : String)
    (hb : data.book_id = some bid) (ht : data.title = some t0)
    (ha : data.author = some a0)
    (ht' : pyStrip t0 ≠ "") (ha' : pyStrip a0 ≠ "")
    (hf : s.podcasts.find? (fun p => p.user_id == uid && p.book_id == bid) = none) :
    generate_podcast g uid now data s =
      ⟨.ok { pendingRow (g (pyStrip t0) (pyStrip a0) (effectiveDuration data.duration))
               uid now data bid (pyStrip t0) (pyStrip a0)
               (effectiveDuration data.duration) s.nextId
             with status := "processing", progress := 10 }
           "Podcast generation started successfully",
       ⟨s.podcasts ++
          [{ pendingRow (g (pyStrip t0) (pyStrip a0) (effectiveDuration data.duration))
               uid now data bid (pyStrip t0) (pyStrip a0)
               (effectiveDuration data.duration) s.nextId
             with status := "processing", progress := 10 }], s.nextId + 1⟩,
       some ⟨s.nextId, g (pyStrip t0) (pyStrip a0) (effectiveDuration data.duration),
             effectiveDuration data.duration⟩,
       ["pending", "processing"]⟩ := by
  simp only [generate_podcast, hb, ht, ha, if_neg ht', if_neg ha', hf]
  rfl

/-- C1: if the request carries its required fields and a non-empty trimmed
title and author, then (a) whenever a podcast row for `(user, book_id)`
already exists, the create handler leaves the database unchanged, schedules
no background work, and returns an existing `(user, book_id)` row with the
"already exists" success message; and (b) two consecutive create calls with
the same request return rows with the same podcast id, the second call
changing nothing and scheduling nothing. -/
theorem C1_create_idempotent (g : String → String → JVal → String)
    (uid now now2 : Nat) (data : PodcastReq) (s : GPState)
    (bid : Int) (t0 a0 : String)
    (hb : data.book_id = some bid) (ht : data.title = some t0)
    (ha : data.author = some a0)
    (ht' : pyStrip t0 ≠ "") (ha' : pyStrip a0 ≠ "") :
    ((∃ p ∈ s.podcasts, p.user_id = uid ∧ p.book_id = bid) →
      (generate_podcast g uid now data s).state = s ∧
      (generate_podcast g uid now data s).scheduled = none ∧
      ∃ q ∈ s.podcasts, q.user_id = uid ∧ q.book_id = bid ∧
        (generate_podcast g uid now data s).result =
          .ok q "Podcast for this book already exists") ∧
    (∀ p1 m1 p2 m2,
      (generate_podcast g uid now data s).result = .ok p1 m1 →
      (generate_podcast g uid now2 data (generate_podcast g uid now data s).state).result =
        .ok p2 m2 →
      p2.id = p1.id ∧
      (generate_podcast g uid now2 data (generate_podcast g uid now data s).state).state =
        (generate_podcast g uid now data s).state ∧
      (generate_podcast g uid now2 data (generate_podcast g uid now data s).state).scheduled =
        none) := by
  constructor
  · rintro ⟨p, hp, hu, hbid⟩
    cases hf : s.podcasts.find? (fun q => q.user_id == uid && q.book_id == bid) with
    | none =>
      exfalso
      have := List.find?_eq_none.mp hf p hp
      simp [hu, hbid] at this
    | some q =>
      have hq := List.mem_of_find?_eq_some hf
      have hq2 := List.find?_some hf
      simp only [Bool.and_eq_true, beq_iff_eq] at hq2
      rw [generate_podcast_found g uid now data s bid t0 a0 q hb ht ha ht' ha' hf]
      exact ⟨rfl, rfl, q, hq, hq2.1, hq2.2, rfl⟩
  · intro p1 m1 p2 m2 h1 h2
    cases hf : s.podcasts.find? (fun q => q.user_id == uid && q.book_id == bid) with
    | some q =>
      rw [generate_podcast_found g uid now data s bid t0 a0 q hb ht ha ht' ha' hf] at h1 h2 ⊢
      rw [generate_podcast_found g uid now2 data s bid t0 a0 q hb ht ha ht' ha' hf] at h2 ⊢
      cases h1
      cases h2
      exact ⟨rfl, rfl, rfl⟩
    | none =>
      rw [generate_podcast_fresh g uid now data s bid t0 a0 hb ht ha ht' ha' hf] at h1 h2 ⊢
      have hf2 : (s.podcasts ++
          [{ pendingRow (g (pyStrip t0) (pyStrip a0) (effectiveDuration data.duration))
               uid now data bid (pyStrip t0) (pyStrip a0)
               (effectiveDuration data.duration) s.nextId
             with status := "processing", progress := 10 }]).find?
          (fun q => q.user_id == uid && q.book_id == bid) =
          some { pendingRow (g (pyStrip t0) (pyStrip a0) (effectiveDuration data.duration))
               uid now data bid (pyStrip t0) (pyStrip a0)
               (effectiveDuration data.duration) s.nextId
             with status := "processing", progress := 10 } := by
        rw [List.find?_append, hf]
        simp [pendingRow]
      rw [generate_podcast_found g uid now2 data _ bid t0 a0 _ hb ht ha ht' ha' hf2] at h2 ⊢
      cases h1
      cases h2
      exact ⟨rfl, rfl, rfl⟩

/-- C1, witness: with the sample row for `(user 1, book 2)` already stored,
a fresh create call for book 2 leaves the database unchanged and schedules
nothing. -/
theorem C1_witness :
    (generate_podcast (fun _ _ _ => "") 1 5 sampleReq sampleState).state = sampleState ∧
    (generate_podcast (fun _ _ _ => "") 1 5 sampleReq sampleState).scheduled = none := by
  have h := (C1_create_idempotent (fun _ _ _ => "") 1 5 0 sampleReq sampleState 2
    "The Great Gatsby" "F. Scott Fitzgerald" rfl rfl rfl (by decide) (by decide)).1
    ⟨samplePodcast, by decide, by decide, by decide⟩
  exact ⟨h.1, h.2.1⟩

/-! ### C7 — general pagination semantics of the book listing -/

/-- `(n + k - 1) / k` is exactly the ceiling of `n / k`: it is an upper bound
whose every competitor `m` with `n ≤ m * k` dominates it. -/
lemma ceil_div_spec (n k : Nat) (hk : 1 ≤ k) :
    n ≤ ((n + k - 1) / k) * k ∧ ∀ m, n ≤ m * k → (n + k - 1) / k ≤ m := by
  constructor
  · rcases n with _ | n'
    · simp
    · have h1 : n' + 1 + k - 1 = n' + k := by omega
      rw [h1, Nat.add_div_right _ hk]
      have h2 := Nat.div_add_mod n' k
      have h3 : n' % k < k := Nat.mod_lt _ hk
      calc n' + 1 = k * (n' / k) + n' % k + 1 := by omega
        _ ≤ k * (n' / k) + k := by omega
        _ = (n' / k + 1) * k := by ring
  · intro m hm
    have h4 : (m + 1) * k = m * k + k := by ring
    have h5 : n + k - 1 < (m + 1) * k := by omega
    have h6 : (n + k - 1) / k < m + 1 := (Nat.div_lt_iff_lt_mul (by omega)).mpr h5
    omega

/-- C7: for every `page ≥ 1`, `per_page ≥ 1` and filtered book list, the
pagination step of the listing returns a `total_pages` that is exactly the
ceiling of `n / per_page` (least `m` with `n ≤ m * per_page`), the slice
starting at `(page-1)*per_page` of length at most `per_page`, `has_prev`
exactly when `page > 1`, and `has_next` exactly when `page < total_pages`;
and `get_books` is exactly this step applied to its filtered, sorted
catalog. -/
theorem C7_pagination_general (page per_page : Nat) (books : List Book)
    (_hpage : 1 ≤ page) (hpp : 1 ≤ per_page) :
    (books.length ≤ (paginate page per_page books).2.total_pages * per_page) ∧
    (∀ m, books.length ≤ m * per_page →
      (paginate page per_page books).2.total_pages ≤ m) ∧
    ((paginate page per_page books).1 =
      (books.drop ((page - 1) * per_page)).take per_page) ∧
    ((paginate page per_page books).1.length ≤ per_page) ∧
    ((paginate page per_page books).2.has_prev = true ↔ 1 < page) ∧
    ((paginate page per_page books).2.has_next = true ↔
      page < (paginate page per_page books).2.total_pages) ∧
    (∀ gr sr sb so, get_books page per_page gr sr sb so =
      paginate page per_page
        (apply_sort sb so (apply_filters (pyLower (pyStrip gr)) (pyStrip sr) books_db))) := by
  refine ⟨(ceil_div_spec books.length per_page hpp).1,
          (ceil_div_spec books.length per_page hpp).2,
          rfl, List.length_take_le _ _, ?_, ?_, fun _ _ _ _ => rfl⟩
  · exact decide_eq_true_iff
  · exact decide_eq_true_iff

/-- C7, witness: the pagination step at `page = 2`, `per_page = 5` over the
12-book catalog obeys the slice equation. -/
theorem C7_witness :
    1 ≤ 2 ∧ 1 ≤ 5 ∧
    (paginate 2 5 books_db).1 = (books_db.drop ((2 - 1) * 5)).take 5 :=
  ⟨by decide, by decide,
   (C7_pagination_general 2 5 books_db (by decide) (by decide)).2.2.1⟩

/-! ### C4 — who may mutate a podcast row -/

/-- C4, counterexample: the claim says that like-increment by a non-owner
returns 404 and leaves the row unchanged.  In fact `like_podcast` looks the
row up by id only: user 2 liking user 1's podcast gets a success response and
the like counter is incremented. -/
theorem C4_counterexample :
    samplePodcast.user_id ≠ 2 ∧
    (like_podcast 2 1 sampleState).1 =
      .ok (samplePodcast.like_count + 1) "Podcast liked successfully" ∧
    (like_podcast 2 1 sampleState).2 ≠ sampleState := by
  refine ⟨by decide, by decide, by decide⟩

/-- C4, amended: for a podcast `p` not owned by the requesting user (row ids
being unique), the read and delete operations — and with them the
play-increment, which only happens inside a successful read — return the 404
"Podcast not found" error and leave the state unchanged; the like operation,
however, has no ownership check: it succeeds for any authenticated user and
increments the like counter of the row. -/
theorem C4_owner_scoping (uid pid : Nat) (play : Bool) (s : GPState) (p : Podcast)
    (hmem : p ∈ s.podcasts) (hid : p.id = pid) (hown : p.user_id ≠ uid)
    (huniq : ∀ q ∈ s.podcasts, q.id = pid → q = p) :
    get_podcast uid pid play s = (.err "Podcast not found" 404, s) ∧
    delete_podcast uid pid s = (.err "Podcast not found" 404, s) ∧
    (like_podcast uid pid s).1 =
      .ok (p.like_count + 1) "Podcast liked successfully" ∧
    (like_podcast uid pid s).2 =
      updatePodcast s pid (fun q => { q with like_count := q.like_count + 1 }) := by
  have hnone : s.podcasts.find? (fun q => q.id == pid && q.user_id == uid) = none := by
    rw [List.find?_eq_none]
    intro q hq
    simp only [Bool.and_eq_true, beq_iff_eq, not_and]
    intro hqid
    rw [huniq q hq hqid]
    exact hown
  have hfound : s.podcasts.find? (fun q => q.id == pid) = some p := by
    cases hf : s.podcasts.find? (fun q => q.id == pid) with
    | none =>
      exfalso
      have := List.find?_eq_none.mp hf p hmem
      simp [hid] at this
    | some q =>
      have h1 := List.mem_of_find?_eq_some hf
      have h2 := List.find?_some hf
      simp only [beq_iff_eq] at h2
      rw [huniq q h1 h2]
  refine ⟨?_, ?_, ?_, ?_⟩
  · simp only [get_podcast, hnone]
  · simp only [delete_podcast, hnone]
  · simp only [like_podcast, hfound]
  · simp only [like_podcast, hfound]

/-- C4, witness: the amended statement at user 2 against user 1's sample
podcast. -/
theorem C4_witness :
    get_podcast 2 1 true sampleState = (.err "Podcast not found" 404, sampleState) ∧
    delete_podcast 2 1 sampleState = (.err "Podcast not found" 404, sampleState) ∧
    (like_podcast 2 1 sampleState).1 =
      .ok (samplePodcast.like_count + 1) "Podcast liked successfully" := by
  have h := C4_owner_scoping 2 1 true sampleState samplePodcast (by decide) (by decide)
    (by decide) (by decide)
  exact ⟨h.1, h.2.1, h.2.2.1⟩

/-! ### C2 — the status field follows pending → processing → completed|failed -/

/-- Every row of an updated state is either the update applied to a row with
the targeted id, or an untouched row with a different id. -/
lemma updatePodcast_mem (s : GPState) (pid : Nat) (f : Podcast → Podcast)
    (p : Podcast) (hp : p ∈ (updatePodcast s pid f).podcasts) :
    (∃ q ∈ s.podcasts, q.id = pid ∧ p = f q) ∨
    (p ∈ s.podcasts ∧ p.id ≠ pid ∨ ∃ q ∈ s.podcasts, q.id = pid ∧ p = f q) := by
  simp only [updatePodcast, List.mem_map] at hp
  obtain ⟨q, hq, hfq⟩ := hp
  by_cases hqid : q.id = pid
  · left
    exact ⟨q, hq, hqid, by simp [← hfq, hqid]⟩
  · right
    left
    constructor
    · have : (q.id == pid) = false := by simp [hqid]
      rw [← hfq, this]
      simpa using hq
    · have : (q.id == pid) = false := by simp [hqid]
      rw [← hfq, this]
      exact hqid

/-- C2: the create handler writes only `pending` then `processing` to the
status column (and only when it actually creates a row); the background
worker writes exactly one of `completed` — leaving the row with progress 100
and `completed_at` set — or `failed` — leaving the row with an error message;
neither ever writes `cancelled`, even though `cancelled` passes the model's
status validator. -/
theorem C2_status_state_machine :
    (∀ g uid now data s,
      ((generate_podcast g uid now data s).statusWrites = [] ∨
       (generate_podcast g uid now data s).statusWrites = ["pending", "processing"]) ∧
      "cancelled" ∉ (generate_podcast g uid now data s).statusWrites) ∧
    (∀ pid script d sOk sMsg tOk now fs fn s,
      ((generate_podcast_audio_background pid script d sOk sMsg tOk now fs fn s).statusWrites = [] ∨
       (generate_podcast_audio_background pid script d sOk sMsg tOk now fs fn s).statusWrites = ["completed"] ∨
       (generate_podcast_audio_background pid script d sOk sMsg tOk now fs fn s).statusWrites = ["failed"]) ∧
      "cancelled" ∉ (generate_podcast_audio_background pid script d sOk sMsg tOk now fs fn s).statusWrites ∧
      ((generate_podcast_audio_background pid script d sOk sMsg tOk now fs fn s).statusWrites = ["completed"] →
        ∀ p ∈ (generate_podcast_audio_background pid script d sOk sMsg tOk now fs fn s).state.podcasts,
          p.id = pid → p.status = "completed" ∧ p.progress = 100 ∧ p.completed_at = some now) ∧
      ((generate_podcast_audio_background pid script d sOk sMsg tOk now fs fn s).statusWrites = ["failed"] →
        ∀ p ∈ (generate_podcast_audio_background pid script d sOk sMsg tOk now fs fn s).state.podcasts,
          p.id = pid → p.status = "failed" ∧ p.error_message ≠ none)) ∧
    validate_status "cancelled" = true := by
  refine ⟨?_, ?_, by decide⟩
  · intro g uid now data s
    unfold generate_podcast
    dsimp only
    split
    · split
      · exact ⟨Or.inl rfl, by simp⟩
      · split
        · exact ⟨Or.inl rfl, by simp⟩
        · split
          · exact ⟨Or.inl rfl, by simp⟩
          · exact ⟨Or.inr rfl, by simp⟩
    · exact ⟨Or.inl rfl, by simp⟩
  · intro pid script d sOk sMsg tOk now fs fn s
    unfold generate_podcast_audio_background
    cases hf : s.podcasts.find? (fun p => p.id == pid) with
    | none => exact ⟨Or.inl rfl, by simp, by simp, by simp⟩
    | some q =>
      cases sOk with
      | false =>
        refine ⟨Or.inr (Or.inr rfl), by simp, by simp, ?_⟩
        intro _ p hp hpid
        rcases updatePodcast_mem _ _ _ p hp with ⟨q', _, _, rfl⟩ | h
        · exact ⟨rfl, by simp⟩
        · rcases h with ⟨_, hne⟩ | ⟨q', _, _, rfl⟩
          · exact absurd hpid hne
          · exact ⟨rfl, by simp⟩
      | true =>
        cases tOk with
        | true =>
          refine ⟨Or.inr (Or.inl rfl), by simp, ?_, by simp⟩
          intro _ p hp hpid
          rcases updatePodcast_mem _ _ _ p hp with ⟨q', _, _, rfl⟩ | h
          · exact ⟨rfl, rfl, rfl⟩
          · rcases h with ⟨_, hne⟩ | ⟨q', _, _, rfl⟩
            · exact absurd hpid hne
            · exact ⟨rfl, rfl, rfl⟩
        | false =>
          refine ⟨Or.inr (Or.inr rfl), by simp, by simp, ?_⟩
          intro _ p hp hpid
          rcases updatePodcast_mem _ _ _ p hp with ⟨q', _, _, rfl⟩ | h
          · exact ⟨rfl, by simp⟩
          · rcases h with ⟨_, hne⟩ | ⟨q', _, _, rfl⟩
            · exact absurd hpid hne
            · exact ⟨rfl, by simp⟩

/-- C2, witness: a successful worker run over the sample state writes exactly
`completed` and leaves the row completed with progress 100 and a completion
timestamp; `cancelled` passes the validator yet is never among the writes. -/
theorem C2_witness :
    validate_status "cancelled" = true ∧
    (generate_podcast_audio_background 1 "s" (.jnum 5) true "" true 9 7 "f.mp3"
      sampleState).statusWrites = ["completed"] ∧
    ((generate_podcast_audio_background 1 "s" (.jnum 5) true "" true 9 7 "f.mp3"
        sampleState).state.podcasts.headD samplePodcast).status = "completed" ∧
    ((generate_podcast_audio_background 1 "s" (.jnum 5) true "" true 9 7 "f.mp3"
        sampleState).state.podcasts.headD samplePodcast).progress = 100 ∧
    ((generate_podcast_audio_background 1 "s" (.jnum 5) true "" true 9 7 "f.mp3"
        sampleState).state.podcasts.headD samplePodcast).completed_at = some 9 := by
  have h := ((C2_status_state_machine.2.1 1 "s" (.jnum 5) true "" true 9 7 "f.mp3"
    sampleState).2.2.1 (by decide))
    ((generate_podcast_audio_background 1 "s" (.jnum 5) true "" true 9 7 "f.mp3"
      sampleState).state.podcasts.headD samplePodcast)
    (by decide) (by decide)
  exact ⟨by decide, by decide, h.1, h.2.1, h.2.2⟩

/-! ### C8 — duration handling and title/author validation on create -/

/-- C8, counterexample: the claim says the duration defaults to 5 whenever
the field is non-numeric.  A request whose `duration` is the JSON boolean
`true` is non-numeric, yet Python's `bool` subclasses `int`, so
`isinstance(True, (int, float))` holds, `True <= 0` is false, and the
handler keeps `True`: the script and the scheduled worker get `True`
(numerically 1, so the trim cap is 60 s, not 300 s), and the stored label is
`"True min"`, not `"5 min"`. -/
theorem C8_counterexample :
    isNumInstance (.jbool true) = true ∧
    ((generate_podcast (fun _ _ _ => "") 1 0 boolDurReq ⟨[], 0⟩).scheduled.map
      WorkerArgs.duration) = some (.jbool true) ∧
    ((resultPodcast? (generate_podcast (fun _ _ _ => "") 1 0 boolDurReq ⟨[], 0⟩).result).map
      Podcast.duration) = some "True min" ∧
    workerMaxDuration (.jbool true) = 60 ∧
    "True min" ≠ "5 min" ∧
    workerMaxDuration (.jbool true) ≠ 300 := by
  refine ⟨by decide, by decide, by decide, by decide, by decide, by decide⟩

/-- C8, amended: on a create request with its required fields present, a
title or author that is empty after trimming is rejected with a 400 error,
no row created and no work scheduled; otherwise (no existing row) the script
call, the stored duration label and the scheduled worker all use the
effective duration, which is the request's duration for a positive JSON
number and defaults to 5 when the field is absent, null, a string, a
non-positive number, or the boolean `false` — the boolean `true`, however,
is kept (Python treats it as the integer 1); the worker's trim cap is the
effective duration times 60. -/
theorem C8_duration_and_validation (g : String → String → JVal → String)
    (uid now : Nat) (data : PodcastReq) (s : GPState)
    (bid : Int) (t0 a0 : String)
    (hb : data.book_id = some bid) (ht : data.title = some t0)
    (ha : data.author = some a0) :
    (pyStrip t0 = "" →
      generate_podcast g uid now data s =
        ⟨.err "Book title cannot be empty" 400, s, none, []⟩) ∧
    (pyStrip t0 ≠ "" → pyStrip a0 = "" →
      generate_podcast g uid now data s =
        ⟨.err "Author cannot be empty" 400, s, none, []⟩) ∧
    (pyStrip t0 ≠ "" → pyStrip a0 ≠ "" →
      s.podcasts.find? (fun p => p.user_id == uid && p.book_id == bid) = none →
      (generate_podcast g uid now data s).scheduled =
        some ⟨s.nextId, g (pyStrip t0) (pyStrip a0) (effectiveDuration data.duration),
              effectiveDuration data.duration⟩ ∧
      (resultPodcast? (generate_podcast g uid now data s).result).map Podcast.duration =
        some (pyStr (effectiveDuration data.duration) ++ " min")) ∧
    (∀ n : Int, data.duration = some (.jnum n) → 0 < n →
      effectiveDuration data.duration = .jnum n) ∧
    (data.duration = some (.jbool true) →
      effectiveDuration data.duration = .jbool true) ∧
    ((data.duration = none ∨ data.duration = some .jnull ∨
      (∃ str, data.duration = some (.jstr str)) ∨
      (∃ n : Int, data.duration = some (.jnum n) ∧ n ≤ 0) ∨
      data.duration = some (.jbool false)) →
      effectiveDuration data.duration = .jnum 5) ∧
    (∀ n : Int, effectiveDuration data.duration = .jnum n →
      workerMaxDuration (effectiveDuration data.duration) = n * 60) := by
  refine ⟨?_, ?_, ?_, ?_, ?_, ?_, ?_⟩
  · intro h
    simp only [generate_podcast, hb, ht, ha, if_pos h]
  · intro h1 h2
    simp only [generate_podcast, hb, ht, ha, if_neg h1, if_pos h2]
  · intro h1 h2 hf
    rw [generate_podcast_fresh g uid now data s bid t0 a0 hb ht ha h1 h2 hf]
    exact ⟨rfl, rfl⟩
  · intro n hdn hpos
    simp [effectiveDuration, hdn, isNumInstance, pyPos, hpos]
  · intro hdt
    simp [effectiveDuration, hdt, isNumInstance, pyPos]
  · rintro (h | h | ⟨str, h⟩ | ⟨n, h, hn⟩ | h) <;>
      simp_all [effectiveDuration, isNumInstance, pyPos]
  · intro n h
    rw [h]
    rfl

/-- C8, witness: a request with duration 3 schedules the worker with
duration 3 and a 180-second trim cap; the stored label is `"3 min"`. -/
theorem C8_witness :
    effectiveDuration (some (.jnum 3)) = .jnum 3 ∧
    (generate_podcast (fun _ _ _ => "") 1 0
      { sampleReq with duration := some (.jnum 3) } ⟨[], 0⟩).scheduled =
      some ⟨0, "", .jnum 3⟩ ∧
    workerMaxDuration (effectiveDuration (some (.jnum 3))) = 180 := by
  have h := C8_duration_and_validation (fun _ _ _ => "") 1 0
    { sampleReq with duration := some (.jnum 3) } ⟨[], 0⟩ 2
    "The Great Gatsby" "F. Scott Fitzgerald" rfl rfl rfl
  have h3 : effectiveDuration (some (.jnum 3)) = .jnum 3 :=
    h.2.2.2.1 3 rfl (by decide)
  have h2 := (h.2.2.1 (by decide) (by decide) rfl).1
  refine ⟨h3, ?_, ?_⟩
  · rw [h2, h3]
  · rw [h3]
    decide

end EduCast
